import Mathlib

/-!
Shallow embedding of the vendly_backend order/inventory core
(app/services/order.py, app/services/product_service.py, app/models/order.py,
app/models/product.py) and proofs about the frozen claims.

Modelling conventions:
* Machine time (Python `datetime`) is modelled as `Int` ticks (day granularity
  for the analytics windows, which use `timedelta(days=...)`); `datetime.utcnow()`
  becomes an explicit `now : Int` parameter.
* Money (Python floats) is modelled as `ℚ`.
* The SQLAlchemy session is modelled as an explicit `DB` value.  Every service
  method returns the post-request database state paired with the result:
  an `HTTPException` raised by the source aborts the transaction before commit,
  so the error branches return the incoming state unchanged.
* `_generate_order_number` mixes wall-clock time and randomness, so the order
  number (and the fresh primary key the flush assigns) are explicit parameters.
* Python `round(x, n)` is modelled with Mathlib `round`; Python uses banker's
  rounding, which differs only at exact halfway points, none of which occur in
  any value these theorems evaluate.
-/

namespace Vendly

/-- Order status enum (app/models/order.py, class OrderStatus). -/
inductive OrderStatus where
  | pending
  | confirmed
  | shipped
  | delivered
  | canceled
  deriving DecidableEq

/-- Product row (app/models/product.py, class Product), restricted to the
columns the order/inventory core reads or writes. -/
structure Product where
  id : Nat
  name : String := ""
  price : ℚ
  production_cost : ℚ := 0
  discount_price : Option ℚ := none
  discount_end_date : Option Int := none
  stock : Int
  is_active : Bool := true
  store_id : Nat := 1
  deriving DecidableEq

/-- Order line row (app/models/order.py, class OrderProduct). -/
structure OrderProduct where
  product_id : Nat
  quantity : Int
  unit_price : ℚ
  deriving DecidableEq

/-- Order row (app/models/order.py, class Order), with its lines inlined
(the `products` relationship). -/
structure Order where
  id : Nat
  order_number : String := ""
  customer_id : Nat
  total_amount : ℚ
  status : OrderStatus
  created_at : Int := 0
  shipping_address : String := ""
  shipping_city : String := ""
  shipping_postal_code : String := ""
  shipping_country : String := ""
  shipped_at : Option Int := none
  delivered_at : Option Int := none
  canceled_at : Option Int := none
  products : List OrderProduct := []
  deriving DecidableEq

/-- Database state: the rows the order/inventory core touches.  Users are
reduced to their ids (create_order only checks existence). -/
structure DB where
  users : List Nat := []
  products : List Product := []
  orders : List Order := []
  deriving DecidableEq

/-- Error taxonomy: the HTTPExceptions raised by the embedded services. -/
inductive ApiError where
  | customerNotFound
  | orderNotFound (order_id : Nat)
  | productNotFound (product_id : Nat)
  | productNotAvailable (name : String)
  | insufficientStock (name : String) (available : Int) (requested : Int)
  | cannotCancel (st : OrderStatus)
  | cannotSubtractBelowZero
  | invalidOperation
  deriving DecidableEq

deriving instance DecidableEq for Except

/-- One line of an order-creation request
(app/schemas/order.py, class OrderProductCreate; pydantic enforces quantity > 0). -/
structure OrderItemReq where
  product_id : Nat
  quantity : Int
  deriving DecidableEq

/-- Order-creation request (app/schemas/order.py, class OrderCreate). -/
structure OrderCreateReq where
  shipping_address : String := ""
  shipping_city : String := ""
  shipping_postal_code : String := ""
  shipping_country : String := ""
  products : List OrderItemReq
  deriving DecidableEq

/-- Order-update request (app/schemas/order.py, class OrderUpdate): only the
status and the shipping fields are updatable. -/
structure OrderUpdateReq where
  status : Option OrderStatus := none
  shipping_address : Option String := none
  shipping_city : Option String := none
  shipping_postal_code : Option String := none
  shipping_country : Option String := none
  deriving DecidableEq

/-- Primary-key lookup on products
(`db.query(Product).filter(Product.id == pid).first()`). -/
def findProduct? (db : DB) (product_id : Nat) : Option Product :=
  db.products.find? (fun p => p.id == product_id)

/-- Primary-key lookup on orders (OrderService.get_order_by_id before its
404 check). -/
def findOrder? (db : DB) (order_id : Nat) : Option Order :=
  db.orders.find? (fun o => o.id == order_id)

/-- Stock of the product with the given id, if present. -/
def stockOf (products : List Product) (product_id : Nat) : Option Int :=
  (products.find? (fun p => p.id == product_id)).map (fun p => p.stock)

/-- Effective sale price (order.py lines 61 to 68): the discount price when one
is set and not expired, the list price otherwise. -/
def effectivePrice (product : Product) (now : Int) : ℚ :=
  match product.discount_price with
  | none => product.price
  | some dp =>
      match product.discount_end_date with
      | none => dp
      | some d => if now < d then dp else product.price

/-- Validation pass of OrderService.create_order (order.py lines 40 to 77):
walks the requested items, checks existence, activity and per-line stock
sufficiency against the untouched database, and accumulates the order lines
and the total amount.  No state is mutated in this phase. -/
def validateItems (db : DB) (now : Int) :
    List OrderItemReq → Except ApiError (List OrderProduct × ℚ)
  | [] => .ok ([], 0)
  | item :: rest =>
      match findProduct? db item.product_id with
      | none => .error (.productNotFound item.product_id)
      | some product =>
          if ¬ product.is_active then .error (.productNotAvailable product.name)
          else if product.stock < item.quantity then
            .error (.insufficientStock product.name product.stock item.quantity)
          else
            match validateItems db now rest with
            | .error e => .error e
            | .ok (lines, total) =>
                let ep := effectivePrice product now
                .ok (⟨product.id, item.quantity, ep⟩ :: lines,
                     ep * (item.quantity : ℚ) + total)

/-- One stock decrement of the apply phase (order.py line 105,
`item_data['product'].stock -= item_data['quantity']`). -/
def applyLineDec (products : List Product) (line : OrderProduct) : List Product :=
  products.map (fun p =>
    if p.id == line.product_id then { p with stock := p.stock - line.quantity } else p)

/-- Apply phase of create_order: the per-line stock decrements
(order.py lines 95 to 105). -/
def decrementStock (products : List Product) (lines : List OrderProduct) : List Product :=
  lines.foldl applyLineDec products

/-- One stock restore of OrderService._restore_order_stock (order.py line 1223,
`product.stock += order_product.quantity`). -/
def applyLineInc (products : List Product) (line : OrderProduct) : List Product :=
  products.map (fun p =>
    if p.id == line.product_id then { p with stock := p.stock + line.quantity } else p)

/-- OrderService._restore_order_stock (order.py lines 1219 to 1223). -/
def restoreStock (products : List Product) (lines : List OrderProduct) : List Product :=
  lines.foldl applyLineInc products

/-- OrderService.create_order (order.py lines 20 to 110).  The fresh order id
(assigned by the flush) and the generated order number are parameters.  All
HTTPExceptions are raised during the validation pass, before any mutation, so
every error branch returns the incoming state. -/
def create_order (db : DB) (order_data : OrderCreateReq) (customer_id : Nat)
    (now : Int) (new_order_id : Nat) (order_number : String) :
    DB × Except ApiError Order :=
  if ¬ db.users.contains customer_id then (db, .error .customerNotFound)
  else
    match validateItems db now order_data.products with
    | .error e => (db, .error e)
    | .ok (lines, total_amount) =>
        let new_order : Order :=
          { id := new_order_id
            order_number := order_number
            customer_id := customer_id
            total_amount := total_amount
            status := .pending
            created_at := now
            shipping_address := order_data.shipping_address
            shipping_city := order_data.shipping_city
            shipping_postal_code := order_data.shipping_postal_code
            shipping_country := order_data.shipping_country
            products := lines }
        ({ db with
            products := decrementStock db.products lines
            orders := db.orders ++ [new_order] },
         .ok new_order)

/-- Status-change block of OrderService.update_order (order.py lines 172 to 187):
each timestamp is set only when it is unset (the `elif` chain), the stock
restore runs only on the first transition to canceled, and the requested status
is then stored unconditionally — there is no transition validation. -/
def applyStatusUpdate (db : DB) (order : Order) (new_status : OrderStatus)
    (now : Int) : List Product × Order :=
  if new_status = .shipped ∧ order.shipped_at = none then
    (db.products, { order with shipped_at := some now, status := new_status })
  else if new_status = .delivered ∧ order.delivered_at = none then
    (db.products, { order with delivered_at := some now, status := new_status })
  else if new_status = .canceled ∧ order.canceled_at = none then
    (restoreStock db.products order.products,
     { order with canceled_at := some now, status := new_status })
  else
    (db.products, { order with status := new_status })

/-- Non-status field updates of OrderService.update_order (order.py
lines 190 to 191), restricted by the OrderUpdate schema to shipping fields. -/
def applyShippingFields (order : Order) (u : OrderUpdateReq) : Order :=
  { order with
    shipping_address := u.shipping_address.getD order.shipping_address
    shipping_city := u.shipping_city.getD order.shipping_city
    shipping_postal_code := u.shipping_postal_code.getD order.shipping_postal_code
    shipping_country := u.shipping_country.getD order.shipping_country }

/-- Write-back of a mutated order row through the session. -/
def replaceOrder (orders : List Order) (order_id : Nat) (o2 : Order) : List Order :=
  orders.map (fun o => if o.id == order_id then o2 else o)

/-- OrderService.update_order (order.py lines 162 to 196). -/
def update_order (db : DB) (order_id : Nat) (u : OrderUpdateReq) (now : Int) :
    DB × Except ApiError Order :=
  match findOrder? db order_id with
  | none => (db, .error (.orderNotFound order_id))
  | some order =>
      let su : List Product × Order :=
        match u.status with
        | none => (db.products, order)
        | some new_status => applyStatusUpdate db order new_status now
      let order2 := applyShippingFields su.2 u
      ({ db with products := su.1, orders := replaceOrder db.orders order_id order2 },
       .ok order2)

/-- OrderService.cancel_order (order.py lines 198 to 219). -/
def cancel_order (db : DB) (order_id : Nat) (now : Int) :
    DB × Except ApiError Order :=
  match findOrder? db order_id with
  | none => (db, .error (.orderNotFound order_id))
  | some order =>
      if order.status = .delivered ∨ order.status = .canceled then
        (db, .error (.cannotCancel order.status))
      else
        let order2 := { order with status := OrderStatus.canceled, canceled_at := some now }
        ({ db with
            products := restoreStock db.products order.products
            orders := replaceOrder db.orders order_id order2 },
         .ok order2)

/-- Write-back of a product row with a new stock value. -/
def setStock (products : List Product) (product_id : Nat) (v : Int) : List Product :=
  products.map (fun p => if p.id == product_id then { p with stock := v } else p)

/-- ProductService.update_stock (product_service.py lines 319 to 347). -/
def update_stock (db : DB) (product_id : Nat) (quantity : Int) (operation : String) :
    DB × Except ApiError Product :=
  match findProduct? db product_id with
  | none => (db, .error (.productNotFound product_id))
  | some product =>
      if operation = "set" then
        ({ db with products := setStock db.products product_id quantity },
         .ok { product with stock := quantity })
      else if operation = "add" then
        ({ db with products := setStock db.products product_id (product.stock + quantity) },
         .ok { product with stock := product.stock + quantity })
      else if operation = "subtract" then
        let new_stock := product.stock - quantity
        if new_stock < 0 then (db, .error .cannotSubtractBelowZero)
        else
          ({ db with products := setStock db.products product_id new_stock },
           .ok { product with stock := new_stock })
      else (db, .error .invalidOperation)

/-- ProductService.update_product (product_service.py lines 243 to 281)
restricted to the pricing columns: it rewrites fields of the one product row
and touches nothing else. -/
def update_product_pricing (db : DB) (product_id : Nat) (price : ℚ)
    (discount_price : Option ℚ) (discount_end_date : Option Int) : DB :=
  { db with products := db.products.map (fun p =>
      if p.id == product_id then
        { p with price := price, discount_price := discount_price,
                 discount_end_date := discount_end_date }
      else p) }

/-- Total quantity the order lines carry for one product id. -/
def lineQty : List OrderProduct → Nat → Int
  | [], _ => 0
  | l :: rest, pid => (if l.product_id = pid then l.quantity else 0) + lineQty rest pid

/-- Total quantity a creation request asks for one product id (summing over
duplicate lines naming the same product). -/
def requestedQty : List OrderItemReq → Nat → Int
  | [], _ => 0
  | i :: rest, pid => (if i.product_id = pid then i.quantity else 0) + requestedQty rest pid

/-- Sum of quantity times captured unit price over the order lines. -/
def linesTotal : List OrderProduct → ℚ
  | [] => 0
  | l :: rest => l.unit_price * (l.quantity : ℚ) + linesTotal rest

/-! Analytics (order.py).  All aggregations join orders to products of a
store through the order lines; an order touches a store when some line of it
references a product of that store. -/

/-- Python round to one decimal (`round(x, 1)`). -/
def round1 (q : ℚ) : ℚ := (round (q * 10) : ℚ) / 10

/-- Python round to two decimals (`round(x, 2)`). -/
def round2 (q : ℚ) : ℚ := (round (q * 100) : ℚ) / 100

/-- OrderService._get_period_start_date (order.py lines 1225 to 1249). -/
def getPeriodStartDate (period : String) (end_date : Int) : Int :=
  if period = "week" then end_date - 7
  else if period = "month" then end_date - 30
  else if period = "quarter" then end_date - 90
  else if period = "year" then end_date - 365
  else end_date - 7

/-- Does the order have a line referencing a product of the store?  This is
the `JOIN order_products JOIN products ... WHERE products.store_id = sid`
membership condition (with distinct order counting). -/
def orderTouchesStore (db : DB) (store_id : Nat) (o : Order) : Bool :=
  o.products.any (fun l =>
    match findProduct? db l.product_id with
    | some p => p.store_id == store_id
    | none => false)

/-- Number of join rows an order contributes for a store: one per line whose
product belongs to the store.  `SUM` aggregates over these rows, so an order
with several store lines is counted once per line. -/
def storeLineCount (db : DB) (store_id : Nat) (o : Order) : Nat :=
  (o.products.filter (fun l =>
    match findProduct? db l.product_id with
    | some p => p.store_id == store_id
    | none => false)).length

/-- Non-canceled orders created inside the window: the row source of the
growth-metric aggregations (order.py lines 1083 to 1088). -/
def growthWindowOrders (db : DB) (start_date end_date : Int) : List Order :=
  db.orders.filter (fun o =>
    !(o.status == .canceled) && decide (start_date ≤ o.created_at)
      && decide (o.created_at ≤ end_date))

/-- Sales aggregation of get_growth_metrics (order.py lines 1079 to 1104):
`SUM(orders.total_amount)` over the join rows of non-canceled orders created
inside the window. -/
def salesJoinSum (db : DB) (store_id : Nat) (start_date end_date : Int) : ℚ :=
  (growthWindowOrders db start_date end_date).foldl
    (fun acc o => acc + (storeLineCount db store_id o : ℚ) * o.total_amount) 0

/-- Growth formula of get_growth_metrics (order.py lines 1179 to 1192): the
percentage change is computed only when the previous value is positive,
otherwise the reported growth is 0 — also when the current value is positive. -/
def growthMetricsChange (current previous : ℚ) : ℚ :=
  if 0 < previous then (current - previous) / previous * 100 else 0

/-- A database error raised by the driver while executing a query. -/
inductive DbError where
  | aggregateInWhere
  deriving DecidableEq

/-- The repeat_customers query of get_growth_metrics (order.py lines 1161 to
1176).  Its `.filter(...)` list ends with `func.count(func.distinct(Order.id))
> 1`, which SQLAlchemy renders into the SQL WHERE clause; an aggregate
function in WHERE is rejected by the database at execution time (SQLite:
misuse of aggregate function count, PostgreSQL: aggregate functions are not
allowed in WHERE), so the `.count()` call raises on every input, whatever the
data — the query never yields a number. -/
def repeatCustomersQuery (_db : DB) (_store_id : Nat) (_start_date _end_date : Int) :
    Except DbError Nat :=
  .error .aggregateInWhere

/-- Customer aggregation of get_growth_metrics (order.py lines 1107 to 1131):
`COUNT(DISTINCT orders.customer_id)` over the join rows of non-canceled
orders created inside the window that carry a line of the store. -/
def customersJoinCount (db : DB) (store_id : Nat) (start_date end_date : Int) :
    Nat :=
  (((growthWindowOrders db start_date end_date).filter
      (fun o => orderTouchesStore db store_id o)).map
    (fun o => o.customer_id)).dedup.length

/-- Number of join rows feeding the AOV aggregation: one row per store line
of each non-canceled order in the window. -/
def aovJoinRowCount (db : DB) (store_id : Nat) (start_date end_date : Int) :
    Nat :=
  ((growthWindowOrders db start_date end_date).map
    (fun o => storeLineCount db store_id o)).sum

/-- AOV aggregation of get_growth_metrics (order.py lines 1134 to 1158):
`AVG(orders.total_amount)` over the join rows, which is the row sum divided
by the row count; `.scalar() or 0` turns the empty-average NULL into 0. -/
def aovJoinAvg (db : DB) (store_id : Nat) (start_date end_date : Int) : ℚ :=
  let rows := aovJoinRowCount db store_id start_date end_date
  if rows = 0 then 0 else salesJoinSum db store_id start_date end_date / (rows : ℚ)

/-- Result payload of get_growth_metrics (order.py lines 1199 to 1209),
restricted to the growth fields the claims mention. -/
structure GrowthMetrics where
  store_id : Nat
  monthly_growth : ℚ
  customer_growth : ℚ
  aov_growth : ℚ
  retention_improvement : ℚ
  deriving DecidableEq

/-- OrderService.get_growth_metrics (order.py lines 1049 to 1209).  The sales,
customer and AOV aggregations (lines 1079 to 1158) execute first and read
only; the repeat_customers query (lines 1161 to 1176) then executes and
raises — see repeatCustomersQuery — so the growth formulas of lines 1179 to
1197 never run and the method never returns its payload.  The `.ok` branch
transcribes those lines: each growth is computed only when the previous value
is positive and is 0 otherwise, and every field is rounded to one decimal. -/
def get_growth_metrics (db : DB) (store_id : Nat) (period : String) (now : Int) :
    Except DbError GrowthMetrics :=
  let end_date := now
  let start_date := getPeriodStartDate period end_date
  let prev_end_date := start_date - 1
  let prev_start_date := getPeriodStartDate period prev_end_date
  let current_sales := salesJoinSum db store_id start_date end_date
  let previous_sales := salesJoinSum db store_id prev_start_date prev_end_date
  let current_customers := customersJoinCount db store_id start_date end_date
  let previous_customers := customersJoinCount db store_id prev_start_date prev_end_date
  let current_aov := aovJoinAvg db store_id start_date end_date
  let previous_aov := aovJoinAvg db store_id prev_start_date prev_end_date
  match repeatCustomersQuery db store_id start_date end_date with
  | .error e => .error e
  | .ok repeat_customers =>
      let monthly_growth := growthMetricsChange current_sales previous_sales
      let customer_growth :=
        growthMetricsChange (current_customers : ℚ) (previous_customers : ℚ)
      let aov_growth := growthMetricsChange current_aov previous_aov
      let retention_improvement :=
        if 0 < current_customers then
          (repeat_customers : ℚ) / (current_customers : ℚ) * 100
        else 0
      .ok { store_id := store_id
            monthly_growth := round1 monthly_growth
            customer_growth := round1 customer_growth
            aov_growth := round1 aov_growth
            retention_improvement := round1 retention_improvement }

/-- The helper calc_percentage_change of get_dashboard_summary (order.py
lines 908 to 911): a zero previous value reports 100 when the current value is
positive and 0 otherwise; otherwise the rounded relative change. -/
def calcPercentageChange (current previous : ℚ) : ℚ :=
  if previous = 0 then (if 0 < current then 100 else 0)
  else round1 ((current - previous) / previous * 100)

/-- Previous-period window of get_dashboard_summary (order.py lines 891 to
893): the immediately preceding window of equal length. -/
def dashboardSummaryPrevWindow (start_date end_date : Int) : Int × Int :=
  (start_date - (end_date - start_date), start_date)

/-- Previous-period window of get_growth_metrics (order.py lines 1074 to
1076): it ends one day before the current window starts. -/
def growthMetricsPrevWindow (period : String) (now : Int) : Int × Int :=
  let start_date := getPeriodStartDate period now
  let prev_end_date := start_date - 1
  (getPeriodStartDate period prev_end_date, prev_end_date)

/-- Result of get_conversion_rate (order.py lines 725 to 836), restricted to
the order-counting fields the claims mention. -/
structure ConversionStats where
  converted_orders : Nat
  non_converted_orders : Nat
  in_progress_orders : Nat
  total_orders : Nat
  completed_journeys : Nat
  conversion_rate : ℚ
  total_conversion_rate : ℚ
  conversion_rate_percent : ℚ
  total_conversion_rate_percent : ℚ
  deriving DecidableEq

/-- Orders of the store created inside the window, each counted once
(`COUNT(DISTINCT orders.id) ... GROUP BY status`, order.py lines 739 to 755). -/
def storeOrdersInWindow (db : DB) (store_id : Nat) (start_date end_date : Int) :
    List Order :=
  db.orders.filter (fun o =>
    decide (start_date ≤ o.created_at) && decide (o.created_at ≤ end_date)
      && orderTouchesStore db store_id o)

/-- Delivered orders of the store in the window (the converted count). -/
def convertedCount (db : DB) (store_id : Nat) (start_date end_date : Int) : Nat :=
  ((storeOrdersInWindow db store_id start_date end_date).filter
    (fun o => o.status == .delivered)).length

/-- Canceled orders of the store in the window (the non-converted count). -/
def nonConvertedCount (db : DB) (store_id : Nat) (start_date end_date : Int) : Nat :=
  ((storeOrdersInWindow db store_id start_date end_date).filter
    (fun o => o.status == .canceled)).length

/-- Orders of the store in the window in any other status (in progress). -/
def inProgressCount (db : DB) (store_id : Nat) (start_date end_date : Int) : Nat :=
  ((storeOrdersInWindow db store_id start_date end_date).filter
    (fun o => !(o.status == .delivered) && !(o.status == .canceled))).length

/-- OrderService.get_conversion_rate (order.py lines 725 to 836): delivered
orders are converted, canceled ones non-converted, the rest in progress; the
conversion rate divides by completed journeys only, the total conversion rate
by all orders. -/
def get_conversion_rate (db : DB) (store_id : Nat) (start_date end_date : Int) :
    ConversionStats :=
  let converted := convertedCount db store_id start_date end_date
  let non_converted := nonConvertedCount db store_id start_date end_date
  let in_progress := inProgressCount db store_id start_date end_date
  let total := converted + non_converted + in_progress
  let completed := converted + non_converted
  let conversion_rate :=
    if 0 < completed then (converted : ℚ) / (completed : ℚ) * 100 else 0
  let total_conversion_rate :=
    if 0 < total then (converted : ℚ) / (total : ℚ) * 100 else 0
  { converted_orders := converted
    non_converted_orders := non_converted
    in_progress_orders := in_progress
    total_orders := total
    completed_journeys := completed
    conversion_rate := conversion_rate
    total_conversion_rate := total_conversion_rate
    conversion_rate_percent := round2 conversion_rate
    total_conversion_rate_percent := round2 total_conversion_rate }

/-! Helper lemmas about the embedded operations. -/

/-- Stock lookup on a cons cell. -/
theorem stockOf_cons (p : Product) (ps : List Product) (pid : Nat) :
    stockOf (p :: ps) pid = if p.id = pid then some p.stock else stockOf ps pid := by
  by_cases h : p.id = pid
  · rw [stockOf, List.find?_cons_of_pos _ (by simp [h]), if_pos h]
    rfl
  · rw [stockOf, List.find?_cons_of_neg _ (by simp [h]), if_neg h]
    rfl

/-- Stock lookup after adjusting the stock of one product id. -/
theorem stockOf_mapAdjust (products : List Product) (tid : Nat) (f : Int → Int)
    (pid : Nat) :
    stockOf (products.map (fun p =>
        if p.id == tid then { p with stock := f p.stock } else p)) pid =
      (stockOf products pid).map (fun s => if tid = pid then f s else s) := by
  induction products with
  | nil => rfl
  | cons p ps ih =>
      rw [List.map_cons, stockOf_cons, stockOf_cons, ih]
      by_cases hpt : p.id = tid
      · subst hpt
        by_cases hpp : p.id = pid
        · subst hpp
          simp
        · simp [hpp]
      · by_cases hpp : p.id = pid
        · subst hpp
          have he : ¬ tid = p.id := by omega
          simp [hpt, he]
        · simp [hpt, hpp]

theorem stockOf_applyLineInc (products : List Product) (line : OrderProduct)
    (pid : Nat) :
    stockOf (applyLineInc products line) pid =
      (stockOf products pid).map
        (fun s => s + (if line.product_id = pid then line.quantity else 0)) := by
  have h := stockOf_mapAdjust products line.product_id (fun s => s + line.quantity) pid
  rw [applyLineInc, h]
  by_cases hc : line.product_id = pid <;> simp [hc]

theorem stockOf_applyLineDec (products : List Product) (line : OrderProduct)
    (pid : Nat) :
    stockOf (applyLineDec products line) pid =
      (stockOf products pid).map
        (fun s => s - (if line.product_id = pid then line.quantity else 0)) := by
  have h := stockOf_mapAdjust products line.product_id (fun s => s - line.quantity) pid
  rw [applyLineDec, h]
  by_cases hc : line.product_id = pid <;> simp [hc]

theorem stockOf_restoreStock (lines : List OrderProduct) (products : List Product)
    (pid : Nat) :
    stockOf (restoreStock products lines) pid =
      (stockOf products pid).map (fun s => s + lineQty lines pid) := by
  induction lines generalizing products with
  | nil => simp [restoreStock, lineQty]
  | cons l rest ih =>
      have hstep : restoreStock products (l :: rest) =
          restoreStock (applyLineInc products l) rest := rfl
      rw [hstep, ih, stockOf_applyLineInc, Option.map_map]
      cases stockOf products pid with
      | none => rfl
      | some s => simp [Function.comp, lineQty, add_assoc]

theorem stockOf_decrementStock (lines : List OrderProduct) (products : List Product)
    (pid : Nat) :
    stockOf (decrementStock products lines) pid =
      (stockOf products pid).map (fun s => s - lineQty lines pid) := by
  induction lines generalizing products with
  | nil => simp [decrementStock, lineQty]
  | cons l rest ih =>
      have hstep : decrementStock products (l :: rest) =
          decrementStock (applyLineDec products l) rest := rfl
      rw [hstep, ih, stockOf_applyLineDec, Option.map_map]
      cases stockOf products pid with
      | none => rfl
      | some s => simp [Function.comp, lineQty, sub_sub]

/-- Replacing the found order row makes the replacement the row the next
lookup finds, provided it keeps the looked-up id. -/
theorem find?_replaceOrder (orders : List Order) (order_id : Nat) (o2 : Order)
    (order : Order)
    (hfind : orders.find? (fun o => o.id == order_id) = some order)
    (hid : o2.id = order_id) :
    (replaceOrder orders order_id o2).find? (fun o => o.id == order_id) = some o2 := by
  induction orders with
  | nil => simp at hfind
  | cons o os ih =>
      by_cases h : o.id = order_id
      · rw [replaceOrder, List.map_cons, if_pos (by simpa using h),
            List.find?_cons_of_pos _ (by simp [hid])]
      · rw [List.find?_cons_of_neg _ (by simp [h])] at hfind
        rw [replaceOrder, List.map_cons, if_neg (by simpa using h),
            List.find?_cons_of_neg _ (by simp [h])]
        exact ih hfind

/-- Validation-pass characterization: a successful validation pairs every
requested item with a produced line built from the product the lookup finds,
and returns the sum of the captured amounts as the total. -/
theorem validateItems_ok (db : DB) (now : Int) :
    ∀ (items : List OrderItemReq) (lines : List OrderProduct) (total : ℚ),
      validateItems db now items = .ok (lines, total) →
      List.Forall₂ (fun (item : OrderItemReq) (line : OrderProduct) =>
          ∃ p, findProduct? db item.product_id = some p ∧
            line = ⟨p.id, item.quantity, effectivePrice p now⟩) items lines ∧
        total = linesTotal lines := by
  intro items
  induction items with
  | nil =>
      intro lines total h
      simp only [validateItems, Except.ok.injEq, Prod.mk.injEq] at h
      obtain ⟨h1, h2⟩ := h
      subst h1; subst h2
      exact ⟨List.Forall₂.nil, rfl⟩
  | cons item rest ih =>
      intro lines total h
      rw [validateItems] at h
      cases hfp : findProduct? db item.product_id with
      | none => simp [hfp] at h
      | some product =>
          rw [hfp] at h
          by_cases hact : product.is_active
          · by_cases hstock : product.stock < item.quantity
            · simp [hact, hstock] at h
            · cases hrec : validateItems db now rest with
              | error e => simp [hact, hstock, hrec] at h
              | ok pr =>
                  obtain ⟨rlines, rtotal⟩ := pr
                  simp only [hact, hstock, hrec, not_true_eq_false, if_false, if_neg,
                    Except.ok.injEq, Prod.mk.injEq] at h
                  obtain ⟨h1, h2⟩ := h
                  obtain ⟨hforall, htot⟩ := ih rlines rtotal hrec
                  subst h1
                  refine ⟨List.Forall₂.cons ⟨product, hfp, rfl⟩ hforall, ?_⟩
                  rw [← h2, htot, linesTotal]
          · simp [hact] at h

/-- The product a successful lookup returns carries the looked-up id. -/
theorem findProduct?_id (db : DB) (pid : Nat) (p : Product)
    (h : findProduct? db pid = some p) : p.id = pid := by
  have := List.find?_some h
  simpa using this

/-- Along the validation correspondence, the produced lines ask for exactly
the requested per-product quantities. -/
theorem lineQty_eq_requestedQty (db : DB) (now : Int) :
    ∀ (items : List OrderItemReq) (lines : List OrderProduct),
      List.Forall₂ (fun (item : OrderItemReq) (line : OrderProduct) =>
          ∃ p, findProduct? db item.product_id = some p ∧
            line = ⟨p.id, item.quantity, effectivePrice p now⟩) items lines →
      ∀ pid, lineQty lines pid = requestedQty items pid := by
  intro items lines hf
  induction hf with
  | nil => intro pid; rfl
  | cons hhead htail ih =>
      intro pid
      obtain ⟨p, hfp, hline⟩ := hhead
      have hpid := findProduct?_id _ _ _ hfp
      rw [lineQty, requestedQty, ih, hline]
      simp only [hpid]

/-! Example fixtures used by counterexamples and witnesses. -/

/-- Example product: list price 100, ten units in stock, active, store 1. -/
def laptop : Product := { id := 1, name := "Laptop", price := 100, stock := 10 }

/-- Example database: one customer (id 1) and the laptop on stock. -/
def exDB : DB := { users := [1], products := [laptop] }

/-- A delivered order sitting in a one-order database. -/
def deliveredOrder : Order :=
  { id := 5, customer_id := 1, total_amount := 0, status := .delivered,
    delivered_at := some 3 }

/-- Database holding only `deliveredOrder`. -/
def deliveredDB : DB := { users := [1], orders := [deliveredOrder] }

/-- A pending order worth 200 created at tick 35, inside the current month
window anchored at tick 40 but outside the previous window. -/
def growthOrder : Order :=
  { id := 1, customer_id := 1, total_amount := 200, status := .pending,
    created_at := 35, products := [⟨1, 2, 100⟩] }

/-- Database for the growth-metric scenario. -/
def growthDB : DB := { users := [1], products := [laptop], orders := [growthOrder] }

/-- An order already shipped at tick 3. -/
def shippedOrder : Order :=
  { id := 7, customer_id := 1, total_amount := 5, status := .shipped,
    shipped_at := some 3 }

/-- Database holding only `shippedOrder`. -/
def shippedDB : DB := { users := [1], orders := [shippedOrder] }

/-- An order already canceled at tick 2, its stock already restored. -/
def canceledOrder : Order :=
  { id := 3, customer_id := 1, total_amount := 30, status := .canceled,
    canceled_at := some 2, products := [⟨1, 3, 10⟩] }

/-- Database holding the laptop and `canceledOrder`. -/
def canceledDB : DB := { users := [1], products := [laptop], orders := [canceledOrder] }

/-- A pending one-line order over three laptops. -/
def pendingOrder : Order :=
  { id := 11, customer_id := 1, total_amount := 30, status := .pending,
    products := [⟨1, 3, 10⟩] }

/-- Database holding the laptop and `pendingOrder`. -/
def pendingDB : DB := { users := [1], products := [laptop], orders := [pendingOrder] }

/-- Creation request for three laptops. -/
def exReq : OrderCreateReq := { products := [⟨1, 3⟩] }

/-- A delivered one-line laptop order created at tick 5. -/
def deliveredInWindow : Order :=
  { id := 1, customer_id := 1, total_amount := 10, status := .delivered,
    created_at := 5, products := [⟨1, 1, 10⟩] }

/-- A canceled one-line laptop order created at tick 5. -/
def canceledInWindow : Order :=
  { id := 2, customer_id := 1, total_amount := 10, status := .canceled,
    created_at := 5, products := [⟨1, 1, 10⟩] }

/-- A pending one-line laptop order created at tick 5. -/
def pendingInWindow : Order :=
  { id := 3, customer_id := 1, total_amount := 10, status := .pending,
    created_at := 5, products := [⟨1, 1, 10⟩] }

/-- Conversion scenario database: one delivered and one canceled order. -/
def conversionDB : DB :=
  { users := [1], products := [laptop], orders := [deliveredInWindow, canceledInWindow] }

/-- Conversion scenario database with a pending order added. -/
def conversionDBPending : DB :=
  { conversionDB with orders := conversionDB.orders ++ [pendingInWindow] }

/-- The order `create_order exDB exReq 1 0 101 "N"` produces. -/
def exCreated : Order :=
  { id := 101, order_number := "N", customer_id := 1,
    total_amount := effectivePrice laptop 0 * ((3 : Int) : ℚ) + 0,
    status := .pending, created_at := 0,
    products := [⟨1, 3, effectivePrice laptop 0⟩] }

/-! Claim theorems. -/

/-- C1: the stock-nonnegativity invariant is violated by create_order when a
request names the same product on two lines.  Against stock 10, the request
[(product 1, qty 6), (product 1, qty 6)] passes validation — each line is
checked against the untouched stock — and both decrements commit, so the
order is accepted and the stock ends at −2 with no insufficient-stock error. -/
theorem create_order_duplicate_lines_negative_stock :
    (create_order exDB { products := [⟨1, 6⟩, ⟨1, 6⟩] } 1 0 101 "ORD-1").2.isOk = true ∧
      stockOf (create_order exDB { products := [⟨1, 6⟩, ⟨1, 6⟩] } 1 0 101 "ORD-1").1.products 1
        = some (-2) :=
  ⟨by decide, by decide⟩

/-- C3 counterexample: update_order accepts a transition out of the terminal
delivered state back to pending — no InvalidTransition error exists and the
stored status changes. -/
theorem update_order_accepts_backward_transition :
    (update_order deliveredDB 5 { status := some .pending } 9).2 =
      .ok { deliveredOrder with status := .pending } := by
  decide

/-- C3 (amended): update_order performs no transition validation — for every
stored order and every requested status, the update succeeds and the stored
status becomes exactly the requested one; timestamps and the stock restore are
the only parts guarded (each on first entry), and only cancel_order rejects
terminal orders. -/
theorem update_order_applies_any_status
    (db : DB) (oid : Nat) (u : OrderUpdateReq) (now : Int) (order : Order)
    (st : OrderStatus) (hfind : findOrder? db oid = some order)
    (hst : u.status = some st) :
    (update_order db oid u now).2.isOk = true ∧
      ∀ o2, (update_order db oid u now).2 = .ok o2 → o2.status = st := by
  constructor
  · rw [update_order, hfind]
    rfl
  · intro o2 h2
    rw [update_order, hfind, hst] at h2
    simp only [Except.ok.injEq] at h2
    subst h2
    rw [applyStatusUpdate]
    split_ifs <;> rfl

/-- C3 amended-claim witness: the delivered order of the counterexample ends
up in the requested pending status. -/
theorem update_order_applies_any_status_witness :
    (update_order deliveredDB 5 { status := some .pending } 9).2.isOk = true ∧
      ({ deliveredOrder with status := OrderStatus.pending } : Order).status =
        OrderStatus.pending :=
  ⟨(update_order_applies_any_status deliveredDB 5 { status := some .pending } 9
      deliveredOrder .pending (by decide) rfl).1,
   (update_order_applies_any_status deliveredDB 5 { status := some .pending } 9
      deliveredOrder .pending (by decide) rfl).2
     { deliveredOrder with status := OrderStatus.pending } (by decide)⟩

/-- C7 counterexample: at the scenario input — previous-period sales 0,
current-period sales 200 — get_growth_metrics raises the database error of
its repeat_customers query instead of reporting the 100 percent growth the
claim states (or any growth at all). -/
theorem growth_metrics_raises_before_reporting :
    get_growth_metrics growthDB 1 "month" 40 = .error .aggregateInWhere ∧
      salesJoinSum growthDB 1 (getPeriodStartDate "month" 40) 40 = 200 ∧
      salesJoinSum growthDB 1 (growthMetricsPrevWindow "month" 40).1
        (growthMetricsPrevWindow "month" 40).2 = 0 := by
  refine ⟨rfl, ?_, ?_⟩
  · rw [salesJoinSum,
      show growthWindowOrders growthDB (getPeriodStartDate "month" 40) 40 = [growthOrder]
        from by decide]
    simp only [List.foldl_cons, List.foldl_nil]
    rw [show storeLineCount growthDB 1 growthOrder = 1 from by decide]
    norm_num [growthOrder]
  · rw [salesJoinSum,
      show growthWindowOrders growthDB (growthMetricsPrevWindow "month" 40).1
          (growthMetricsPrevWindow "month" 40).2 = [] from by decide]
    rfl

/-- C7 (amended): get_growth_metrics never reports any growth — its
repeat_customers query puts an aggregate in the SQL WHERE clause, so every
call raises a database error before the growth formulas run.  Its unreachable
formulas compute (current − previous)/previous × 100 only when the previous
value is positive and yield 0 otherwise — also when previous is 0 and current
is positive.  The 100-percent-on-zero-previous convention belongs to
get_dashboard_summary's calc_percentage_change alone, whose previous period
is the immediately preceding window of equal length; the window
get_growth_metrics would use ends one day before the current window starts. -/
theorem growth_metrics_error_and_conventions
    (db : DB) (store_id : Nat) (period : String) (now : Int)
    (current previous : ℚ) :
    get_growth_metrics db store_id period now = .error .aggregateInWhere ∧
      (∀ g, get_growth_metrics db store_id period now ≠ .ok g) ∧
      (0 < previous →
        growthMetricsChange current previous = (current - previous) / previous * 100) ∧
      growthMetricsChange current 0 = 0 ∧
      (previous = 0 → 0 < current → calcPercentageChange current previous = 100) ∧
      (previous = 0 → ¬ 0 < current → calcPercentageChange current previous = 0) ∧
      (previous ≠ 0 → calcPercentageChange current previous =
        round1 ((current - previous) / previous * 100)) ∧
      growthMetricsPrevWindow period now =
        (getPeriodStartDate period (getPeriodStartDate period now - 1),
         getPeriodStartDate period now - 1) ∧
      (∀ s e, dashboardSummaryPrevWindow s e = (s - (e - s), s)) := by
  refine ⟨rfl, ?_, ?_, ?_, ?_, ?_, ?_, rfl, fun _ _ => rfl⟩
  · intro g h
    have hbad : (Except.error DbError.aggregateInWhere : Except DbError GrowthMetrics)
        = .ok g := h
    exact Except.noConfusion hbad
  · intro h
    rw [growthMetricsChange, if_pos h]
  · rw [growthMetricsChange, if_neg (by norm_num)]
  · intro h0 hc
    rw [calcPercentageChange, if_pos h0, if_pos hc]
  · intro h0 hc
    rw [calcPercentageChange, if_pos h0, if_neg hc]
  · intro h0
    rw [calcPercentageChange, if_neg h0]

/-- C7 witness at the scenario input: the growth-metric call errors instead
of reporting anything, the unreachable growth formula yields 0 at current 200
and previous 0, and the dashboard formula yields 100 there. -/
theorem growth_metrics_error_and_conventions_witness :
    get_growth_metrics growthDB 1 "month" 40 = .error .aggregateInWhere ∧
      growthMetricsChange 200 0 = 0 ∧
      calcPercentageChange 200 0 = 100 :=
  ⟨(growth_metrics_error_and_conventions growthDB 1 "month" 40 200 0).1,
   (growth_metrics_error_and_conventions growthDB 1 "month" 40 200 0).2.2.2.1,
   (growth_metrics_error_and_conventions growthDB 1 "month" 40 200 0).2.2.2.2.1
     rfl (by norm_num)⟩

/-- Unfolding of cancel_order once the order lookup has succeeded. -/
theorem cancel_order_found (db : DB) (oid : Nat) (now : Int) (order : Order)
    (hfind : findOrder? db oid = some order) :
    cancel_order db oid now =
      if order.status = .delivered ∨ order.status = .canceled then
        (db, .error (.cannotCancel order.status))
      else
        ({ db with
            products := restoreStock db.products order.products
            orders := replaceOrder db.orders oid
              { order with status := OrderStatus.canceled, canceled_at := some now } },
         .ok { order with status := OrderStatus.canceled, canceled_at := some now }) := by
  rw [cancel_order, hfind]

/-- The product list is untouched by update_order whenever the order's
canceled_at timestamp is already set: the stock restore sits only in the
first-cancellation branch. -/
theorem update_order_products_of_canceled_at
    (db : DB) (oid : Nat) (u : OrderUpdateReq) (now : Int) (order : Order)
    (hfind : findOrder? db oid = some order)
    (hca : order.canceled_at.isSome = true) :
    (update_order db oid u now).1.products = db.products := by
  rw [update_order, hfind]
  cases hst : u.status with
  | none => rfl
  | some ns =>
      simp only
      rw [applyStatusUpdate]
      have hnone : ¬ order.canceled_at = none := by
        intro h
        rw [h] at hca
        simp at hca
      split_ifs with h1 h2 h3 <;>
        first
        | rfl
        | exact absurd h3.2 hnone

/-- C9: each lifecycle timestamp is written only when it is still unset:
an update that requests a status whose timestamp already exists (for example
shipped on an order whose shipped_at is set) leaves that timestamp unchanged;
the same holds for delivered_at and canceled_at. -/
theorem update_order_timestamps_written_once
    (db : DB) (oid : Nat) (u : OrderUpdateReq) (now : Int) (order : Order)
    (hfind : findOrder? db oid = some order) :
    ∀ o2, (update_order db oid u now).2 = .ok o2 →
      (order.shipped_at.isSome = true → o2.shipped_at = order.shipped_at) ∧
        (order.delivered_at.isSome = true → o2.delivered_at = order.delivered_at) ∧
        (order.canceled_at.isSome = true → o2.canceled_at = order.canceled_at) := by
  intro o2 h2
  rw [update_order, hfind] at h2
  cases hst : u.status with
  | none =>
      rw [hst] at h2
      simp only [Except.ok.injEq] at h2
      subst h2
      exact ⟨fun _ => rfl, fun _ => rfl, fun _ => rfl⟩
  | some ns =>
      rw [hst] at h2
      simp only [Except.ok.injEq] at h2
      subst h2
      rw [applyStatusUpdate]
      refine ⟨fun hs => ?_, fun hd => ?_, fun hc => ?_⟩
      · have : ¬ order.shipped_at = none := by
          intro h; rw [h] at hs; simp at hs
        split_ifs with h1 h2 h3 <;>
          first
          | rfl
          | exact absurd h1.2 this
      · have : ¬ order.delivered_at = none := by
          intro h; rw [h] at hd; simp at hd
        split_ifs with h1 h2 h3 <;>
          first
          | rfl
          | exact absurd h2.2 this
      · have : ¬ order.canceled_at = none := by
          intro h; rw [h] at hc; simp at hc
        split_ifs with h1 h2 h3 <;>
          first
          | rfl
          | exact absurd h3.2 this

/-- C9 witness: an order already shipped at tick 3, asked to become shipped
again at tick 9, keeps shipped_at = 3. -/
theorem update_order_timestamps_written_once_witness :
    (update_order shippedDB 7 { status := some .shipped } 9).2 = .ok shippedOrder ∧
      shippedOrder.shipped_at = some 3 :=
  ⟨by decide,
   ((update_order_timestamps_written_once shippedDB 7 { status := some .shipped } 9
      shippedOrder (by decide)) shippedOrder (by decide)).1 (by decide)⟩

/-- C10: stock is restored at most once per order.  While canceled_at is set,
no update_order request — in particular a repeated cancellation request —
touches any product's stock; and after a successful cancel_order, a second
cancel_order is rejected without changing anything and a canceled-status
update leaves the stock alone. -/
theorem cancel_restores_stock_at_most_once
    (db : DB) (oid : Nat) (u : OrderUpdateReq) (now now2 : Int) (order : Order)
    (hfind : findOrder? db oid = some order) :
    (order.canceled_at.isSome = true →
      (update_order db oid u now).1.products = db.products) ∧
      ∀ db2 o2, cancel_order db oid now = (db2, .ok o2) →
        (cancel_order db2 oid now2) = (db2, .error (.cannotCancel .canceled)) ∧
          (update_order db2 oid u now2).1.products = db2.products := by
  constructor
  · intro hca
    exact update_order_products_of_canceled_at db oid u now order hfind hca
  · intro db2 o2 hc
    rw [cancel_order_found db oid now order hfind] at hc
    by_cases hterm : order.status = .delivered ∨ order.status = .canceled
    · rw [if_pos hterm] at hc
      exact absurd (congrArg Prod.snd hc) (by simp)
    · rw [if_neg hterm] at hc
      simp only [Prod.mk.injEq] at hc
      obtain ⟨hdb2, ho2⟩ := hc
      have hoid : order.id = oid := by
        have := List.find?_some hfind
        simpa using this
      have hfind2 : findOrder? db2 oid =
          some { order with status := OrderStatus.canceled, canceled_at := some now } := by
        rw [← hdb2]
        exact find?_replaceOrder db.orders oid _ order hfind (by simpa using hoid)
      constructor
      · rw [cancel_order_found db2 oid now2 _ hfind2, if_pos (by simp)]
      · exact update_order_products_of_canceled_at db2 oid u now2 _ hfind2 rfl

/-- The status-change block rewrites only status and timestamps: id, amount
and lines survive. -/
theorem applyStatusUpdate_preserves (db : DB) (order : Order) (ns : OrderStatus)
    (now : Int) :
    ((applyStatusUpdate db order ns now).2).id = order.id ∧
      ((applyStatusUpdate db order ns now).2).total_amount = order.total_amount ∧
      ((applyStatusUpdate db order ns now).2).products = order.products := by
  rw [applyStatusUpdate]
  split_ifs <;> exact ⟨rfl, rfl, rfl⟩

/-- The shipping-field block rewrites only shipping fields: id, amount and
lines survive. -/
theorem applyShippingFields_preserves (order : Order) (u : OrderUpdateReq) :
    (applyShippingFields order u).id = order.id ∧
      (applyShippingFields order u).total_amount = order.total_amount ∧
      (applyShippingFields order u).products = order.products :=
  ⟨rfl, rfl, rfl⟩

/-- Every order in a written-back order list is either the replacement or one
of the original rows. -/
theorem mem_replaceOrder (orders : List Order) (oid : Nat) (o2New : Order) :
    ∀ o2 ∈ replaceOrder orders oid o2New, o2 = o2New ∨ o2 ∈ orders := by
  intro o2 ho2
  rw [replaceOrder] at ho2
  obtain ⟨o1, ho1, heq⟩ := List.mem_map.mp ho2
  by_cases h : o1.id = oid
  · rw [if_pos (by simpa using h)] at heq
    exact Or.inl heq.symm
  · rw [if_neg (by simpa using h)] at heq
    exact Or.inr (heq ▸ ho1)

/-- C4: an order's total equals the sum of quantity times captured unit price
over its lines at creation, and neither a status update, nor a cancellation,
nor a later change to a product's price or discount ever rewrites an order's
total_amount or its lines. -/
theorem order_totals_immutable (db : DB) :
    (∀ od cid now nid num o, (create_order db od cid now nid num).2 = .ok o →
        o.total_amount = linesTotal o.products) ∧
      (∀ oid u now, ∀ o2 ∈ (update_order db oid u now).1.orders,
        ∃ o1, o1 ∈ db.orders ∧ o2.id = o1.id ∧
          o2.total_amount = o1.total_amount ∧ o2.products = o1.products) ∧
      (∀ oid now, ∀ o2 ∈ (cancel_order db oid now).1.orders,
        ∃ o1, o1 ∈ db.orders ∧ o2.id = o1.id ∧
          o2.total_amount = o1.total_amount ∧ o2.products = o1.products) ∧
      (∀ pid price dp de,
        (update_product_pricing db pid price dp de).orders = db.orders) := by
  refine ⟨?_, ?_, ?_, fun _ _ _ _ => rfl⟩
  · intro od cid now nid num o hok
    rw [create_order] at hok
    by_cases hcu : db.users.contains cid = true
    · rw [if_neg (not_not_intro hcu)] at hok
      cases hval : validateItems db now od.products with
      | error e =>
          rw [hval] at hok
          simp at hok
      | ok pr =>
          obtain ⟨lines, total⟩ := pr
          rw [hval] at hok
          simp only [Except.ok.injEq] at hok
          subst hok
          exact (validateItems_ok db now od.products lines total hval).2
    · rw [if_pos hcu] at hok
      simp at hok
  · intro oid u now o2 ho2
    cases hfind : findOrder? db oid with
    | none =>
        rw [update_order, hfind] at ho2
        exact ⟨o2, ho2, rfl, rfl, rfl⟩
    | some order =>
        rw [update_order, hfind] at ho2
        have horder : order ∈ db.orders := List.mem_of_find?_eq_some hfind
        rcases mem_replaceOrder db.orders oid _ o2 ho2 with hnew | hold
        · subst hnew
          cases hst : u.status with
          | none =>
              refine ⟨order, horder, ?_, ?_, ?_⟩ <;>
                simp [hst, applyShippingFields]
          | some ns =>
              obtain ⟨hid, hta, hpr⟩ := applyStatusUpdate_preserves db order ns now
              refine ⟨order, horder, ?_, ?_, ?_⟩ <;>
                simp [hst, applyShippingFields, hid, hta, hpr]
        · exact ⟨o2, hold, rfl, rfl, rfl⟩
  · intro oid now o2 ho2
    cases hfind : findOrder? db oid with
    | none =>
        rw [cancel_order, hfind] at ho2
        exact ⟨o2, ho2, rfl, rfl, rfl⟩
    | some order =>
        have horder : order ∈ db.orders := List.mem_of_find?_eq_some hfind
        rw [cancel_order_found db oid now order hfind] at ho2
        by_cases hterm : order.status = .delivered ∨ order.status = .canceled
        · rw [if_pos hterm] at ho2
          exact ⟨o2, ho2, rfl, rfl, rfl⟩
        · rw [if_neg hterm] at ho2
          rcases mem_replaceOrder db.orders oid _ o2 ho2 with hnew | hold
          · subst hnew
            exact ⟨order, horder, rfl, rfl, rfl⟩
          · exact ⟨o2, hold, rfl, rfl, rfl⟩

/-- C4 witness: the three-laptop order is created with total 100 × 3 and its
total equals the sum over its lines. -/
theorem order_totals_immutable_witness :
    (create_order exDB exReq 1 0 101 "N").2 = .ok exCreated ∧
      exCreated.total_amount = linesTotal exCreated.products :=
  ⟨rfl, (order_totals_immutable exDB).1 exReq 1 0 101 "N" exCreated rfl⟩

/-- Modelled from the spec's wording of the effective-price rule, written for
comparison with the code's effectivePrice: the discounted price is charged
when a discount price is set and either no end date exists or the end date
lies in the future; otherwise the list price is charged. -/
def effectivePriceSpec (p : Product) (now : Int) : ℚ :=
  match p.discount_price with
  | some dp =>
      if p.discount_end_date.isNone
          || p.discount_end_date.any (fun d => decide (now < d)) then dp
      else p.price
  | none => p.price

/-- C5: every line of a created order captures the effective price of its
product at creation time; the code's effective-price rule agrees with the
spec's wording; and a product with price 100, discount price 80 and no end
date yields unit price 80. -/
theorem order_lines_capture_effective_price
    (db : DB) (od : OrderCreateReq) (cid : Nat) (now : Int) (nid : Nat)
    (num : String) (o : Order)
    (hok : (create_order db od cid now nid num).2 = .ok o) :
    List.Forall₂ (fun (item : OrderItemReq) (line : OrderProduct) =>
        ∃ p, findProduct? db item.product_id = some p ∧
          line.unit_price = effectivePrice p now) od.products o.products ∧
      (∀ q n2, effectivePrice q n2 = effectivePriceSpec q n2) ∧
      effectivePrice { id := 2, price := 100, discount_price := some 80, stock := 1 } now
        = 80 := by
  refine ⟨?_, ?_, rfl⟩
  · rw [create_order] at hok
    by_cases hcu : db.users.contains cid = true
    · rw [if_neg (not_not_intro hcu)] at hok
      cases hval : validateItems db now od.products with
      | error e =>
          rw [hval] at hok
          simp at hok
      | ok pr =>
          obtain ⟨lines, total⟩ := pr
          rw [hval] at hok
          simp only [Except.ok.injEq] at hok
          subst hok
          have hf := (validateItems_ok db now od.products lines total hval).1
          refine List.Forall₂.imp ?_ hf
          intro item line hpl
          obtain ⟨p, hfp, hline⟩ := hpl
          exact ⟨p, hfp, by rw [hline]⟩
    · rw [if_pos hcu] at hok
      simp at hok
  · intro q n2
    cases hdp : q.discount_price with
    | none => simp [effectivePrice, effectivePriceSpec, hdp]
    | some dp =>
        cases hde : q.discount_end_date with
        | none => simp [effectivePrice, effectivePriceSpec, hdp, hde]
        | some d =>
            by_cases hlt : n2 < d
            · simp [effectivePrice, effectivePriceSpec, hdp, hde, hlt]
            · simp [effectivePrice, effectivePriceSpec, hdp, hde, hlt]

/-- C5 witness: the three-laptop order captures unit price 100 (no discount),
and the 100/80/no-end-date product yields 80. -/
theorem order_lines_capture_effective_price_witness :
    List.Forall₂ (fun (item : OrderItemReq) (line : OrderProduct) =>
        ∃ p, findProduct? exDB item.product_id = some p ∧
          line.unit_price = effectivePrice p 0) exReq.products exCreated.products ∧
      effectivePrice { id := 2, price := 100, discount_price := some 80, stock := 1 } 0
        = 80 :=
  ⟨(order_lines_capture_effective_price exDB exReq 1 0 101 "N" exCreated rfl).1,
   (order_lines_capture_effective_price exDB exReq 1 0 101 "N" exCreated rfl).2.2⟩

/-- C2: order creation is all-or-nothing.  Any validation error leaves the
database untouched; a success appends exactly one pending order carrying one
line per requested item and decrements every named product's stock by the
total requested quantity; a single-line order of exactly the remaining stock
succeeds while stock + 1 fails with an insufficient-stock error naming the
available amount. -/
theorem create_order_all_or_nothing
    (db : DB) (od : OrderCreateReq) (cid : Nat) (now : Int) (nid : Nat)
    (num : String) :
    (∀ e, (create_order db od cid now nid num).2 = .error e →
        (create_order db od cid now nid num).1 = db) ∧
      (∀ o, (create_order db od cid now nid num).2 = .ok o →
        (create_order db od cid now nid num).1.orders = db.orders ++ [o] ∧
          o.status = .pending ∧
          o.products.length = od.products.length ∧
          ∀ pid, stockOf (create_order db od cid now nid num).1.products pid =
            (stockOf db.products pid).map
              (fun s => s - requestedQty od.products pid)) ∧
      (∀ p pid q, od.products = [⟨pid, q⟩] → db.users.contains cid = true →
        findProduct? db pid = some p → p.is_active = true →
        ((q = p.stock → (create_order db od cid now nid num).2.isOk = true) ∧
          (q = p.stock + 1 → (create_order db od cid now nid num).2 =
            .error (.insufficientStock p.name p.stock (p.stock + 1))))) := by
  refine ⟨?_, ?_, ?_⟩
  · intro e herr
    rw [create_order] at herr ⊢
    by_cases hcu : db.users.contains cid = true
    · rw [if_neg (not_not_intro hcu)] at herr ⊢
      cases hval : validateItems db now od.products with
      | error e2 => rfl
      | ok pr =>
          obtain ⟨lines, total⟩ := pr
          rw [hval] at herr
          simp at herr
    · rw [if_pos hcu]
  · intro o hok
    rw [create_order] at hok ⊢
    by_cases hcu : db.users.contains cid = true
    · rw [if_neg (not_not_intro hcu)] at hok ⊢
      cases hval : validateItems db now od.products with
      | error e =>
          rw [hval] at hok
          simp at hok
      | ok pr =>
          obtain ⟨lines, total⟩ := pr
          rw [hval] at hok
          simp only [Except.ok.injEq] at hok
          subst hok
          obtain ⟨hf, htot⟩ := validateItems_ok db now od.products lines total hval
          refine ⟨rfl, rfl, ?_, ?_⟩
          · exact (List.Forall₂.length_eq hf).symm
          · intro pid
            show stockOf (decrementStock db.products lines) pid =
              (stockOf db.products pid).map
                (fun s => s - requestedQty od.products pid)
            rw [stockOf_decrementStock,
              lineQty_eq_requestedQty db now od.products lines hf pid]
    · rw [if_pos hcu] at hok
      simp at hok
  · intro p pid q hsingle hcu hfp hact
    constructor
    · intro hq
      subst hq
      rw [create_order, if_neg (not_not_intro hcu), hsingle]
      simp [validateItems, hfp, hact, Except.isOk, Except.toBool]
    · intro hq
      subst hq
      have hlt : p.stock < p.stock + 1 := by omega
      rw [create_order, if_neg (not_not_intro hcu), hsingle]
      simp [validateItems, hfp, hact, hlt]

/-- C2 witness: against stock 10, ordering 10 laptops succeeds and ordering
11 fails with the insufficient-stock error naming available 10. -/
theorem create_order_all_or_nothing_witness :
    (create_order exDB { products := [⟨1, 10⟩] } 1 0 101 "N").2.isOk = true ∧
      (create_order exDB { products := [⟨1, 11⟩] } 1 0 101 "N").2 =
        .error (.insufficientStock laptop.name laptop.stock (laptop.stock + 1)) :=
  ⟨((create_order_all_or_nothing exDB { products := [⟨1, 10⟩] } 1 0 101 "N").2.2
      laptop 1 10 rfl (by decide) (by decide) (by decide)).1 (by decide),
   ((create_order_all_or_nothing exDB { products := [⟨1, 11⟩] } 1 0 101 "N").2.2
      laptop 1 11 rfl (by decide) (by decide) (by decide)).2 (by decide)⟩

/-- C6: cancel_order on a non-terminal order marks it canceled with
canceled_at set and adds every line quantity back onto its product's stock;
on a delivered or canceled order it fails and changes nothing.  Concretely,
ordering 3 of 10 leaves stock 7 and the cancellation returns it to 10. -/
theorem cancel_order_round_trips_stock
    (db : DB) (oid : Nat) (now : Int) (order : Order)
    (hfind : findOrder? db oid = some order) :
    (order.status ≠ .delivered → order.status ≠ .canceled →
        (cancel_order db oid now).2 =
            .ok { order with status := OrderStatus.canceled, canceled_at := some now } ∧
          ∀ pid, stockOf (cancel_order db oid now).1.products pid =
            (stockOf db.products pid).map (fun s => s + lineQty order.products pid)) ∧
      (order.status = .delivered ∨ order.status = .canceled →
        cancel_order db oid now = (db, .error (.cannotCancel order.status))) ∧
      stockOf (create_order exDB { products := [⟨1, 3⟩] } 1 0 101 "N").1.products 1
        = some 7 ∧
      stockOf (cancel_order
          (create_order exDB { products := [⟨1, 3⟩] } 1 0 101 "N").1 101 1).1.products 1
        = some 10 := by
  refine ⟨?_, ?_, by decide, by decide⟩
  · intro hd hcnl
    have hterm : ¬ (order.status = .delivered ∨ order.status = .canceled) := by
      rintro (h | h)
      exacts [hd h, hcnl h]
    rw [cancel_order_found db oid now order hfind, if_neg hterm]
    exact ⟨rfl, fun pid => stockOf_restoreStock order.products db.products pid⟩
  · intro hterm
    rw [cancel_order_found db oid now order hfind, if_pos hterm]

/-- C6 witness: canceling a pending one-line order (3 laptops) succeeds and
bumps the laptop stock by the line quantity. -/
theorem cancel_order_round_trips_stock_witness :
    (cancel_order pendingDB 11 4).2 =
        .ok { pendingOrder with status := OrderStatus.canceled, canceled_at := some 4 } ∧
      stockOf (cancel_order pendingDB 11 4).1.products 1 =
        (stockOf pendingDB.products 1).map
          (fun s => s + lineQty pendingOrder.products 1) :=
  ⟨((cancel_order_round_trips_stock pendingDB 11 4 pendingOrder (by decide)).1
      (by decide) (by decide)).1,
   ((cancel_order_round_trips_stock pendingDB 11 4 pendingOrder (by decide)).1
      (by decide) (by decide)).2 1⟩

/-- Appending orders to the database splits the windowed store-order list. -/
theorem storeOrdersInWindow_append (db : DB) (os2 : List Order) (store : Nat)
    (s e : Int) :
    storeOrdersInWindow { db with orders := db.orders ++ os2 } store s e =
      storeOrdersInWindow db store s e ++
        os2.filter (fun o => decide (s ≤ o.created_at) && decide (o.created_at ≤ e)
          && orderTouchesStore db store o) := by
  have hts : orderTouchesStore { db with orders := db.orders ++ os2 } =
      orderTouchesStore db := rfl
  rw [storeOrdersInWindow, storeOrdersInWindow, hts]
  exact List.filter_append _ _

/-- A pending order never enters the delivered count. -/
theorem convertedCount_append_pending (db : DB) (o : Order) (store : Nat)
    (s e : Int) (ho : o.status = .pending) :
    convertedCount { db with orders := db.orders ++ [o] } store s e =
      convertedCount db store s e := by
  rw [convertedCount, convertedCount, storeOrdersInWindow_append,
    List.filter_append, List.length_append]
  by_cases hw : (decide (s ≤ o.created_at) && decide (o.created_at ≤ e)
      && orderTouchesStore db store o) = true
  · simp [List.filter, hw, ho]
  · simp [List.filter, hw]

/-- A pending order never enters the canceled count. -/
theorem nonConvertedCount_append_pending (db : DB) (o : Order) (store : Nat)
    (s e : Int) (ho : o.status = .pending) :
    nonConvertedCount { db with orders := db.orders ++ [o] } store s e =
      nonConvertedCount db store s e := by
  rw [nonConvertedCount, nonConvertedCount, storeOrdersInWindow_append,
    List.filter_append, List.length_append]
  by_cases hw : (decide (s ≤ o.created_at) && decide (o.created_at ≤ e)
      && orderTouchesStore db store o) = true
  · simp [List.filter, hw, ho]
  · simp [List.filter, hw]

/-- C8: the conversion rate reported by get_conversion_rate divides delivered
orders by delivered + canceled only, while the total conversion rate divides
by all orders; appending a pending order therefore never changes the
conversion rate; concretely one delivered plus one canceled order gives 50
percent on both rates, and a third pending order moves the total rate to
33.33 while the conversion rate stays 50. -/
theorem conversion_rate_excludes_in_progress (db : DB) (store : Nat) (s e : Int) :
    ((get_conversion_rate db store s e).conversion_rate_percent =
        round2 (if 0 < convertedCount db store s e + nonConvertedCount db store s e then
          ((convertedCount db store s e : ℕ) : ℚ) /
            ((convertedCount db store s e + nonConvertedCount db store s e : ℕ) : ℚ) * 100
          else 0)) ∧
      ((get_conversion_rate db store s e).total_conversion_rate_percent =
        round2 (if 0 < convertedCount db store s e + nonConvertedCount db store s e +
            inProgressCount db store s e then
          ((convertedCount db store s e : ℕ) : ℚ) /
            ((convertedCount db store s e + nonConvertedCount db store s e +
              inProgressCount db store s e : ℕ) : ℚ) * 100
          else 0)) ∧
      (∀ o, o.status = .pending →
        (get_conversion_rate { db with orders := db.orders ++ [o] } store
            s e).conversion_rate_percent =
          (get_conversion_rate db store s e).conversion_rate_percent) ∧
      (get_conversion_rate conversionDB 1 0 9).conversion_rate_percent = 50 ∧
      (get_conversion_rate conversionDBPending 1 0 9).conversion_rate_percent = 50 ∧
      (get_conversion_rate conversionDB 1 0 9).total_conversion_rate_percent = 50 ∧
      (get_conversion_rate conversionDBPending 1 0 9).total_conversion_rate_percent
        = 3333 / 100 := by
  refine ⟨rfl, rfl, ?_, ?_, ?_, ?_, ?_⟩
  · intro o ho
    have hc := convertedCount_append_pending db o store s e ho
    have hnc := nonConvertedCount_append_pending db o store s e ho
    simp only [get_conversion_rate]
    rw [hc, hnc]
  · rw [get_conversion_rate]
    rw [show convertedCount conversionDB 1 0 9 = 1 from by decide,
      show nonConvertedCount conversionDB 1 0 9 = 1 from by decide,
      show inProgressCount conversionDB 1 0 9 = 0 from by decide]
    norm_num [round2, round_eq]
  · rw [get_conversion_rate]
    rw [show convertedCount conversionDBPending 1 0 9 = 1 from by decide,
      show nonConvertedCount conversionDBPending 1 0 9 = 1 from by decide,
      show inProgressCount conversionDBPending 1 0 9 = 1 from by decide]
    norm_num [round2, round_eq]
  · rw [get_conversion_rate]
    rw [show convertedCount conversionDB 1 0 9 = 1 from by decide,
      show nonConvertedCount conversionDB 1 0 9 = 1 from by decide,
      show inProgressCount conversionDB 1 0 9 = 0 from by decide]
    norm_num [round2, round_eq]
  · rw [get_conversion_rate]
    rw [show convertedCount conversionDBPending 1 0 9 = 1 from by decide,
      show nonConvertedCount conversionDBPending 1 0 9 = 1 from by decide,
      show inProgressCount conversionDBPending 1 0 9 = 1 from by decide]
    norm_num [round2, round_eq]

/-- C8 witness: adding the pending order to the two-order scenario leaves the
conversion rate untouched. -/
theorem conversion_rate_excludes_in_progress_witness :
    (get_conversion_rate conversionDBPending 1 0 9).conversion_rate_percent =
      (get_conversion_rate conversionDB 1 0 9).conversion_rate_percent :=
  (conversion_rate_excludes_in_progress conversionDB 1 0 9).2.2.1
    pendingInWindow rfl

/-- C10 witness: a canceled order (canceled_at set) asked to become canceled
again leaves every product's stock unchanged. -/
theorem cancel_restores_stock_at_most_once_witness :
    (update_order canceledDB 3 { status := some .canceled } 9).1.products =
      canceledDB.products :=
  (cancel_restores_stock_at_most_once canceledDB 3 { status := some .canceled } 9 9
    canceledOrder (by decide)).1 (by decide)

end Vendly
